import Mathlib

/-!
Verification of the content-driven fallback visualization logic of the
Astra chat front-end: the keyword classifier and mock-template renderer
(`generateMockVisualization`), the plain-text fallback dashboard generator
(`generateFallbackVisualization`), and the markdown-fence cleaning and
HTML-skeleton wrapping applied to generative-API responses
(`generateVisualization` in VisualizationPage).

JavaScript strings are modelled as Lean `String` (a list of code points);
the few JS operations used by the code (`toLowerCase`, `includes`,
`trim`, `split`, `match` with the three concrete regexes, `replace` with
the concrete patterns) are given executable Lean counterparts below.
-/

namespace Astra

/-! ## JS string primitives -/

/-- Boolean test: `p` is a leading segment of `s` (character lists). -/
def isPrefixOfL : List Char → List Char → Bool
  | [], _ => true
  | _ :: _, [] => false
  | p :: ps, c :: cs => p == c && isPrefixOfL ps cs

/-- Boolean substring test: `pat` occurs contiguously inside `s`.
Models JavaScript `s.includes(pat)`. -/
def hasSubL (pat : List Char) : List Char → Bool
  | [] => pat.isEmpty
  | c :: rest => isPrefixOfL pat (c :: rest) || hasSubL pat rest

/-- JavaScript `s.includes(pat)`. -/
def jsIncludes (s pat : String) : Bool := hasSubL pat.data s.data

/-- JavaScript `s.startsWith(pat)` (used only to state theorems). -/
def startsWithL (s pat : String) : Bool := isPrefixOfL pat.data s.data

/-- JavaScript `s.endsWith(pat)` (used only to state theorems). -/
def endsWithL (s pat : String) : Bool := isPrefixOfL pat.data.reverse s.data.reverse

/-- JavaScript `s.toLowerCase()` (ASCII case mapping; every keyword the
classifier searches for is ASCII). -/
def jsToLower (s : String) : String := String.mk (s.data.map Char.toLower)

/-- JavaScript `s.toUpperCase()` (ASCII case mapping; only ever applied to
the fixed values "financial", "meeting", "general"). -/
def jsToUpper (s : String) : String := String.mk (s.data.map Char.toUpper)

/-- The JavaScript whitespace class: the characters trimmed by
`String.prototype.trim` and matched by the regex class `\s`. -/
def isJsWhitespace (c : Char) : Bool :=
  c == ' ' || c == '\t' || c == '\n' || c == '\r' ||
  c.toNat == 11 || c.toNat == 12 || c.toNat == 0xA0 || c.toNat == 0x1680 ||
  (0x2000 ≤ c.toNat && c.toNat ≤ 0x200A) || c.toNat == 0x2028 || c.toNat == 0x2029 ||
  c.toNat == 0x202F || c.toNat == 0x205F || c.toNat == 0x3000 || c.toNat == 0xFEFF

/-- JavaScript `s.trim()`. -/
def jsTrim (s : String) : String :=
  String.mk (((s.data.dropWhile isJsWhitespace).reverse.dropWhile isJsWhitespace).reverse)

/-! ## Content classifier

`generateMockVisualization` (src/unnamed/part_001, lines 105-219) lowercases
its input, computes four keyword-family flags, and picks one of four chart
templates with an if/else-if chain.  The bucket-selection part is the
classifier; the spec calls its result a `TopicBucket`. -/

/-- The four mutually exclusive topical buckets of the spec, one per branch
of the if/else-if chain in `generateMockVisualization`. -/
inductive TopicBucket
  | revenueTrend
  | comparison
  | growthTrend
  | generic
  deriving DecidableEq, Repr

/-- `hasRevenue` flag (part_001 line 109). -/
def hasRevenueKw (lower : String) : Bool :=
  jsIncludes lower "revenue" || jsIncludes lower "sales" || jsIncludes lower "income"

/-- `hasGrowth` flag (part_001 line 110). -/
def hasGrowthKw (lower : String) : Bool :=
  jsIncludes lower "growth" || jsIncludes lower "increase" || jsIncludes lower "trend"

/-- `hasComparison` flag (part_001 line 111). -/
def hasComparisonKw (lower : String) : Bool :=
  jsIncludes lower "vs" || jsIncludes lower "compare" || jsIncludes lower "versus"

/-- `hasTime` flag (part_001 line 112). -/
def hasTimeKw (lower : String) : Bool :=
  jsIncludes lower "year" || jsIncludes lower "month" || jsIncludes lower "quarter"

/-- The bucket selection of `generateMockVisualization` (part_001 lines
108-219): lowercase the content, then an if/else-if chain in the fixed
order revenue-trend, comparison, growth-trend, generic. -/
def classify (content : String) : TopicBucket :=
  let lowerContent := jsToLower content
  if hasRevenueKw lowerContent && hasTimeKw lowerContent then .revenueTrend
  else if hasComparisonKw lowerContent then .comparison
  else if hasGrowthKw lowerContent then .growthTrend
  else .generic

/-! ## Template string constants

Literal segments of the JS template literals, named in source order.
`cd*` / `m*` are the per-bucket `chartData` / `metrics` strings of
`generateMockVisualization` (part_001 lines 121-219).  `mockSeg0..6` are
the literal parts of its output template (part_001 lines 221-294), split
at the interpolation points, which in order are: title, title, metrics,
chartType, chartData, title.  `fbSeg0..12` are the literal parts of the
`generateFallbackVisualization` template (geminiVisualization.ts lines
235-559); its interpolation points in order are: the sanitized content,
the numbers card, the percentages card, the dates card, the uppercased
content type, the complexity label, the reading time, the line count,
the word count, the line count again, the sentence count, and the
character count.  `ncSeg*` / `pcSeg*` / `dcSeg*` are the literal parts
of the three conditional insight cards.  `vpSeg0/1` surround the
`htmlContent` interpolation of the wrapping skeleton in
VisualizationPage.tsx lines 104-133.  Braces, apostrophes and backticks
are written with `\x` escapes.
-/

def cdRevenue : String := String.join [
  "\n",
  "        labels: [\x27Q1 2023\x27, \x27Q2 2023\x27, \x27Q3 2023\x27, \x27Q4 2023\x27, \x27Q1 2024\x27],\n",
  "        datasets: [\x7b\n",
  "          label: \x27Revenue ($M)\x27,\n",
  "          data: [12, 19, 25, 32, 45],\n",
  "          borderColor: \x27#FF4500\x27,\n",
  "          backgroundColor: \x27rgba(255, 69, 0, 0.1)\x27,\n",
  "          borderWidth: 3,\n",
  "          fill: true\n",
  "        \x7d]"
]

def mRevenue : String := String.join [
  "\n",
  "        <div class=\"metric\">\n",
  "          <h3>Total Revenue</h3>\n",
  "          <p>$133M</p>\n",
  "        </div>\n",
  "        <div class=\"metric\">\n",
  "          <h3>Growth Rate</h3>\n",
  "          <p>275%</p>\n",
  "        </div>\n",
  "        <div class=\"metric\">\n",
  "          <h3>Avg. Quarterly</h3>\n",
  "          <p>$26.6M</p>\n",
  "        </div>"
]

def cdComparison : String := String.join [
  "\n",
  "        labels: [\x27Product A\x27, \x27Product B\x27, \x27Product C\x27, \x27Product D\x27],\n",
  "        datasets: [\x7b\n",
  "          label: \x27Performance Score\x27,\n",
  "          data: [85, 92, 78, 96],\n",
  "          backgroundColor: [\x27#FF4500\x27, \x27#FF6B35\x27, \x27#FF8C42\x27, \x27#FFAD5A\x27],\n",
  "          borderColor: \x27#FF4500\x27,\n",
  "          borderWidth: 2\n",
  "        \x7d]"
]

def mComparison : String := String.join [
  "\n",
  "        <div class=\"metric\">\n",
  "          <h3>Best Performer</h3>\n",
  "          <p>Product D</p>\n",
  "        </div>\n",
  "        <div class=\"metric\">\n",
  "          <h3>Average Score</h3>\n",
  "          <p>87.8</p>\n",
  "        </div>\n",
  "        <div class=\"metric\">\n",
  "          <h3>Improvement</h3>\n",
  "          <p>+12%</p>\n",
  "        </div>"
]

def cdGrowth : String := String.join [
  "\n",
  "        labels: [\x27Jan\x27, \x27Feb\x27, \x27Mar\x27, \x27Apr\x27, \x27May\x27, \x27Jun\x27],\n",
  "        datasets: [\x7b\n",
  "          label: \x27Growth %\x27,\n",
  "          data: [5, 12, 18, 25, 32, 45],\n",
  "          borderColor: \x27#FF4500\x27,\n",
  "          backgroundColor: \x27rgba(255, 69, 0, 0.2)\x27,\n",
  "          borderWidth: 3,\n",
  "          fill: true\n",
  "        \x7d]"
]

def mGrowth : String := String.join [
  "\n",
  "        <div class=\"metric\">\n",
  "          <h3>Peak Growth</h3>\n",
  "          <p>45%</p>\n",
  "        </div>\n",
  "        <div class=\"metric\">\n",
  "          <h3>Avg Growth</h3>\n",
  "          <p>22.8%</p>\n",
  "        </div>\n",
  "        <div class=\"metric\">\n",
  "          <h3>Trend</h3>\n",
  "          <p>Upward</p>\n",
  "        </div>"
]

def cdGeneric : String := String.join [
  "\n",
  "        labels: [\x27Category A\x27, \x27Category B\x27, \x27Category C\x27, \x27Category D\x27],\n",
  "        datasets: [\x7b\n",
  "          data: [35, 25, 20, 20],\n",
  "          backgroundColor: [\x27#FF4500\x27, \x27#FF6B35\x27, \x27#FF8C42\x27, \x27#FFAD5A\x27],\n",
  "          borderWidth: 2\n",
  "        \x7d]"
]

def mGeneric : String := String.join [
  "\n",
  "        <div class=\"metric\">\n",
  "          <h3>Total Items</h3>\n",
  "          <p>100</p>\n",
  "        </div>\n",
  "        <div class=\"metric\">\n",
  "          <h3>Categories</h3>\n",
  "          <p>4</p>\n",
  "        </div>\n",
  "        <div class=\"metric\">\n",
  "          <h3>Top Category</h3>\n",
  "          <p>Category A</p>\n",
  "        </div>"
]

def mockSeg0 : String := String.join [
  "<!DOCTYPE html>\n",
  "<html lang=\"en\">\n",
  "<head>\n",
  "    <meta charset=\"UTF-8\">\n",
  "    <meta name=\"viewport\" content=\"width=device-width, initial-scale=1.0\">\n",
  "    <title>"
]

def mockSeg1 : String := String.join [
  "</title>\n",
  "    <script src=\"https://cdn.jsdelivr.net/npm/chart.js\"></script>\n",
  "    <style>\n",
  "        body \x7b \n",
  "            font-family: Arial, sans-serif; \n",
  "            margin: 20px; \n",
  "            background: #f5f5f5; \n",
  "        \x7d\n",
  "        .container \x7b \n",
  "            max-width: 1200px; \n",
  "            margin: 0 auto; \n",
  "            background: white; \n",
  "            padding: 20px; \n",
  "            border-radius: 8px; \n",
  "            box-shadow: 0 2px 10px rgba(0,0,0,0.1); \n",
  "        \x7d\n",
  "        .chart-container \x7b\n",
  "            position: relative;\n",
  "            height: 400px;\n",
  "            margin: 20px 0;\n",
  "        \x7d\n",
  "        h1 \x7b color: #333; text-align: center; \x7d\n",
  "        .metric \x7b \n",
  "            display: inline-block; \n",
  "            margin: 10px; \n",
  "            padding: 15px; \n",
  "            background: #FF4500; \n",
  "            color: white; \n",
  "            border-radius: 8px; \n",
  "            text-align: center;\n",
  "        \x7d\n",
  "        .metric h3 \x7b margin: 0 0 5px 0; font-size: 14px; \x7d\n",
  "        .metric p \x7b margin: 0; font-size: 18px; font-weight: bold; \x7d\n",
  "    </style>\n",
  "</head>\n",
  "<body>\n",
  "    <div class=\"container\">\n",
  "        <h1>📊 "
]

def mockSeg2 : String := String.join [
  "</h1>\n",
  "        <div class=\"metrics\">\n",
  "            "
]

def mockSeg3 : String := String.join [
  "\n",
  "        </div>\n",
  "        <div class=\"chart-container\">\n",
  "            <canvas id=\"chart\"></canvas>\n",
  "        </div>\n",
  "    </div>\n",
  "    <script>\n",
  "        const ctx = document.getElementById(\x27chart\x27).getContext(\x272d\x27);\n",
  "        new Chart(ctx, \x7b\n",
  "            type: \x27"
]

def mockSeg4 : String := String.join [
  "\x27,\n",
  "            data: \x7b\n",
  "                "
]

def mockSeg5 : String := String.join [
  "\n",
  "            \x7d,\n",
  "            options: \x7b\n",
  "                responsive: true,\n",
  "                maintainAspectRatio: false,\n",
  "                plugins: \x7b\n",
  "                    legend: \x7b\n",
  "                        position: \x27top\x27,\n",
  "                    \x7d,\n",
  "                    title: \x7b\n",
  "                        display: true,\n",
  "                        text: \x27"
]

def mockSeg6 : String := String.join [
  "\x27\n",
  "                    \x7d\n",
  "                \x7d\n",
  "            \x7d\n",
  "        \x7d);\n",
  "    </script>\n",
  "</body>\n",
  "</html>"
]


def ncSeg0 : String := String.join [
  "\n",
  "            <div class=\"insight-card\">\n",
  "                <div class=\"insight-title\">💰 Financial Data</div>\n",
  "                <ul class=\"insight-list\">\n",
  "                    "
]

def ncSeg1 : String := String.join [
  "\n",
  "                    "
]

def ncSeg2 : String := String.join [
  "\n",
  "                </ul>\n",
  "            </div>\n",
  "            "
]


def pcSeg0 : String := String.join [
  "\n",
  "            <div class=\"insight-card\">\n",
  "                <div class=\"insight-title\">📈 Percentages</div>\n",
  "                <ul class=\"insight-list\">\n",
  "                    "
]

def pcSeg1 : String := String.join [
  "\n",
  "                </ul>\n",
  "            </div>\n",
  "            "
]


def dcSeg0 : String := String.join [
  "\n",
  "            <div class=\"insight-card\">\n",
  "                <div class=\"insight-title\">📅 Important Dates</div>\n",
  "                <ul class=\"insight-list\">\n",
  "                    "
]

def dcSeg1 : String := String.join [
  "\n",
  "                </ul>\n",
  "            </div>\n",
  "            "
]


def fbSeg0 : String := String.join [
  "<!DOCTYPE html>\n",
  "<html lang=\"en\">\n",
  "<head>\n",
  "    <meta charset=\"UTF-8\">\n",
  "    <meta name=\"viewport\" content=\"width=device-width, initial-scale=1.0\">\n",
  "    <title>Content Summary</title>\n",
  "    <style>\n",
  "        * \x7b\n",
  "            margin: 0;\n",
  "            padding: 0;\n",
  "            box-sizing: border-box;\n",
  "        \x7d\n",
  "        \n",
  "        body \x7b\n",
  "            font-family: -apple-system, BlinkMacSystemFont, \x27Segoe UI\x27, Roboto, sans-serif;\n",
  "            background: linear-gradient(135deg, #1a1a2e 0%, #16213e 100%);\n",
  "            color: white;\n",
  "            min-height: 100vh;\n",
  "            padding: 8px;\n",
  "            font-size: 16px;\n",
  "            line-height: 1.6;\n",
  "            margin: 0;\n",
  "            width: 100vw;\n",
  "            overflow-x: hidden;\n",
  "        \x7d\n",
  "        \n",
  "        .container \x7b\n",
  "            max-width: 100vw;\n",
  "            margin: 0 auto;\n",
  "            padding: 0;\n",
  "            box-sizing: border-box;\n",
  "        \x7d\n",
  "        \n",
  "        .header \x7b\n",
  "            text-align: center;\n",
  "            margin-bottom: 15px;\n",
  "            padding: 15px 0;\n",
  "            border-bottom: 2px solid #FF4500;\n",
  "        \x7d\n",
  "        \n",
  "        .header h1 \x7b\n",
  "            font-size: 1.4rem;\n",
  "            margin-bottom: 6px;\n",
  "            background: linear-gradient(45deg, #FF4500, #FF6B35);\n",
  "            -webkit-background-clip: text;\n",
  "            -webkit-text-fill-color: transparent;\n",
  "            background-clip: text;\n",
  "            line-height: 1.2;\n",
  "        \x7d\n",
  "        \n",
  "        .header p \x7b\n",
  "            font-size: 0.8rem;\n",
  "            opacity: 0.8;\n",
  "        \x7d\n",
  "        \n",
  "        .content-card \x7b\n",
  "            background: rgba(255, 255, 255, 0.1);\n",
  "            border-radius: 15px;\n",
  "            padding: 15px;\n",
  "            margin-bottom: 15px;\n",
  "            border: 1px solid rgba(255, 69, 0, 0.3);\n",
  "            backdrop-filter: blur(10px);\n",
  "            width: 100%;\n",
  "            box-sizing: border-box;\n",
  "        \x7d\n",
  "        \n",
  "        .content-text \x7b\n",
  "            line-height: 1.6;\n",
  "            font-size: 0.85rem;\n",
  "            white-space: pre-wrap;\n",
  "            word-wrap: break-word;\n",
  "            max-height: 250px;\n",
  "            overflow-y: auto;\n",
  "        \x7d\n",
  "        \n",
  "        .api-notice \x7b\n",
  "            background: linear-gradient(45deg, #4CAF50, #45a049);\n",
  "            border-radius: 10px;\n",
  "            padding: 12px;\n",
  "            margin-bottom: 15px;\n",
  "            text-align: center;\n",
  "            width: 100%;\n",
  "            box-sizing: border-box;\n",
  "        \x7d\n",
  "        \n",
  "        .api-notice h3 \x7b\n",
  "            margin-bottom: 6px;\n",
  "            font-size: 1rem;\n",
  "        \x7d\n",
  "        \n",
  "        .api-notice p \x7b\n",
  "            opacity: 0.9;\n",
  "            font-size: 0.75rem;\n",
  "            margin-bottom: 8px;\n",
  "        \x7d\n",
  "        \n",
  "        .insights-grid \x7b\n",
  "            display: grid;\n",
  "            grid-template-columns: 1fr;\n",
  "            gap: 12px;\n",
  "            margin-top: 15px;\n",
  "            width: 100%;\n",
  "        \x7d\n",
  "        \n",
  "        .insight-card \x7b\n",
  "            background: rgba(76, 175, 80, 0.1);\n",
  "            border: 1px solid #4CAF50;\n",
  "            border-radius: 10px;\n",
  "            padding: 12px;\n",
  "            width: 100%;\n",
  "            box-sizing: border-box;\n",
  "        \x7d\n",
  "        \n",
  "        .insight-title \x7b\n",
  "            color: #4CAF50;\n",
  "            font-weight: bold;\n",
  "            margin-bottom: 6px;\n",
  "            font-size: 0.9rem;\n",
  "        \x7d\n",
  "        \n",
  "        .insight-list \x7b\n",
  "            list-style: none;\n",
  "            padding: 0;\n",
  "        \x7d\n",
  "        \n",
  "        .insight-list li \x7b\n",
  "            padding: 6px 0;\n",
  "            border-bottom: 1px solid rgba(255,255,255,0.1);\n",
  "            font-size: 0.8rem;\n",
  "        \x7d\n",
  "        \n",
  "        .insight-list li:last-child \x7b\n",
  "            border-bottom: none;\n",
  "        \x7d\n",
  "        \n",
  "        .stats \x7b\n",
  "            display: grid;\n",
  "            grid-template-columns: repeat(2, 1fr);\n",
  "            gap: 10px;\n",
  "            margin-top: 15px;\n",
  "            width: 100%;\n",
  "        \x7d\n",
  "        \n",
  "        .stat-card \x7b\n",
  "            background: rgba(255, 69, 0, 0.1);\n",
  "            border: 1px solid #FF4500;\n",
  "            border-radius: 10px;\n",
  "            padding: 12px;\n",
  "            text-align: center;\n",
  "            width: 100%;\n",
  "            box-sizing: border-box;\n",
  "        \x7d\n",
  "        \n",
  "        .stat-number \x7b\n",
  "            font-size: 1.2rem;\n",
  "            font-weight: bold;\n",
  "            color: #FF4500;\n",
  "            margin-bottom: 3px;\n",
  "        \x7d\n",
  "        \n",
  "        .stat-label \x7b\n",
  "            font-size: 0.7rem;\n",
  "            opacity: 0.8;\n",
  "        \x7d\n",
  "        \n",
  "        @media (min-width: 768px) \x7b\n",
  "            body \x7b\n",
  "                padding: 20px;\n",
  "                font-size: 18px;\n",
  "            \x7d\n",
  "            \n",
  "            .header h1 \x7b\n",
  "                font-size: 2.5rem;\n",
  "                margin-bottom: 10px;\n",
  "            \x7d\n",
  "            \n",
  "            .header p \x7b\n",
  "                font-size: 1rem;\n",
  "            \x7d\n",
  "            \n",
  "            .content-card \x7b\n",
  "                padding: 30px;\n",
  "                margin-bottom: 30px;\n",
  "            \x7d\n",
  "            \n",
  "            .content-text \x7b\n",
  "                font-size: 1.1rem;\n",
  "                line-height: 1.8;\n",
  "                max-height: none;\n",
  "            \x7d\n",
  "            \n",
  "            .api-notice \x7b\n",
  "                padding: 20px;\n",
  "                margin-bottom: 30px;\n",
  "            \x7d\n",
  "            \n",
  "            .api-notice h3 \x7b\n",
  "                font-size: 1.3rem;\n",
  "                margin-bottom: 10px;\n",
  "            \x7d\n",
  "            \n",
  "            .api-notice p \x7b\n",
  "                font-size: 0.95rem;\n",
  "                margin-bottom: 15px;\n",
  "            \x7d\n",
  "            \n",
  "            .insights-grid \x7b\n",
  "                grid-template-columns: repeat(auto-fit, minmax(250px, 1fr));\n",
  "                gap: 20px;\n",
  "                margin-top: 30px;\n",
  "            \x7d\n",
  "            \n",
  "            .insight-card \x7b\n",
  "                padding: 20px;\n",
  "            \x7d\n",
  "            \n",
  "            .insight-title \x7b\n",
  "                font-size: 1.1rem;\n",
  "                margin-bottom: 10px;\n",
  "            \x7d\n",
  "            \n",
  "            .insight-list li \x7b\n",
  "                padding: 5px 0;\n",
  "                font-size: 1rem;\n",
  "            \x7d\n",
  "            \n",
  "            .stats \x7b\n",
  "                grid-template-columns: repeat(auto-fit, minmax(200px, 1fr));\n",
  "                gap: 20px;\n",
  "                margin-top: 30px;\n",
  "            \x7d\n",
  "            \n",
  "            .stat-card \x7b\n",
  "                padding: 20px;\n",
  "            \x7d\n",
  "            \n",
  "            .stat-number \x7b\n",
  "                font-size: 2rem;\n",
  "                margin-bottom: 5px;\n",
  "            \x7d\n",
  "            \n",
  "            .stat-label \x7b\n",
  "                font-size: 0.9rem;\n",
  "            \x7d\n",
  "        \x7d\n",
  "    </style>\n",
  "</head>\n",
  "<body>\n",
  "    <div class=\"container\">\n",
  "        <div class=\"header\">\n",
  "            <h1>🚀 Content Summary</h1>\n",
  "            <p>RocketHub Intelligence Dashboard</p>\n",
  "        </div>\n",
  "        \n",
  "        <div class=\"api-notice\">\n",
  "            <h3>📊 Content Analysis Dashboard</h3>\n",
  "            <p>This visualization provides comprehensive analysis of your content. Enhanced AI-powered visualizations with charts and graphs are available when API keys are configured.</p>\n",
  "        </div>\n",
  "        \n",
  "        <div class=\"content-card\">\n",
  "            <h2 style=\"color: #FF4500; margin-bottom: 20px;\">📄 Full Content</h2>\n",
  "            <div class=\"content-text\">"
]

def fbSeg1 : String := String.join [
  "</div>\n",
  "        </div>\n",
  "        \n",
  "        <div class=\"insights-grid\">\n",
  "            "
]

def fbSeg2 : String := String.join [
  "\n",
  "            \n",
  "            "
]

def fbSeg3 : String := String.join [
  "\n",
  "            \n",
  "            "
]

def fbSeg4 : String := String.join [
  "\n",
  "            \n",
  "            <div class=\"insight-card\">\n",
  "                <div class=\"insight-title\">🔍 Key Insights</div>\n",
  "                <ul class=\"insight-list\">\n",
  "                    <li>Content Type: "
]

def fbSeg5 : String := String.join [
  "</li>\n",
  "                    <li>Complexity: "
]

def fbSeg6 : String := String.join [
  "</li>\n",
  "                    <li>Reading Time: ~"
]

def fbSeg7 : String := String.join [
  " min</li>\n",
  "                    <li>Structure: "
]

def fbSeg8 : String := String.join [
  " sections</li>\n",
  "                </ul>\n",
  "            </div>\n",
  "        </div>\n",
  "        <div class=\"stats\">\n",
  "            <div class=\"stat-card\">\n",
  "                <div class=\"stat-number\">"
]

def fbSeg9 : String := String.join [
  "</div>\n",
  "                <div class=\"stat-label\">Words</div>\n",
  "            </div>\n",
  "            <div class=\"stat-card\">\n",
  "                <div class=\"stat-number\">"
]

def fbSeg10 : String := String.join [
  "</div>\n",
  "                <div class=\"stat-label\">Lines</div>\n",
  "            </div>\n",
  "            <div class=\"stat-card\">\n",
  "                <div class=\"stat-number\">"
]

def fbSeg11 : String := String.join [
  "</div>\n",
  "                <div class=\"stat-label\">Sentences</div>\n",
  "            </div>\n",
  "            <div class=\"stat-card\">\n",
  "                <div class=\"stat-number\">"
]

def fbSeg12 : String := String.join [
  "</div>\n",
  "                <div class=\"stat-label\">Characters</div>\n",
  "            </div>\n",
  "        </div>\n",
  "    </div>\n",
  "</body>\n",
  "</html>"
]


def vpSeg0 : String := String.join [
  "<!DOCTYPE html>\n",
  "<html lang=\"en\">\n",
  "<head>\n",
  "    <meta charset=\"UTF-8\">\n",
  "    <meta name=\"viewport\" content=\"width=device-width, initial-scale=1.0\">\n",
  "    <title>RocketHub Data Visualization</title>\n",
  "    <script src=\"https://cdn.jsdelivr.net/npm/chart.js\"></script>\n",
  "    <style>\n",
  "        body \x7b \n",
  "            font-family: Arial, sans-serif; \n",
  "            margin: 20px; \n",
  "            background: #f5f5f5; \n",
  "        \x7d\n",
  "        .container \x7b \n",
  "            max-width: 1200px; \n",
  "            margin: 0 auto; \n",
  "            background: white; \n",
  "            padding: 20px; \n",
  "            border-radius: 8px; \n",
  "            box-shadow: 0 2px 10px rgba(0,0,0,0.1); \n",
  "        \x7d\n",
  "    </style>\n",
  "</head>\n",
  "<body>\n",
  "    <div class=\"container\">\n",
  "        "
]

def vpSeg1 : String := String.join [
  "\n",
  "    </div>\n",
  "</body>\n",
  "</html>"
]

/-! ## Mock visualization renderer (part_001, lines 105-298)

The four branch variables `chartType`, `title`, `chartData`, `metrics` set
by the if/else-if chain, as functions of the selected bucket, and the final
template assembly. -/

/-- The `chartType` variable of each branch. -/
def mockChartType : TopicBucket → String
  | .revenueTrend => "line"
  | .comparison => "bar"
  | .growthTrend => "line"
  | .generic => "doughnut"

/-- The `title` variable of each branch. -/
def mockTitle : TopicBucket → String
  | .revenueTrend => "Revenue Growth Analysis"
  | .comparison => "Comparative Analysis"
  | .growthTrend => "Growth Trend Analysis"
  | .generic => "Data Overview"

/-- The `chartData` variable of each branch. -/
def mockChartData : TopicBucket → String
  | .revenueTrend => cdRevenue
  | .comparison => cdComparison
  | .growthTrend => cdGrowth
  | .generic => cdGeneric

/-- The `metrics` variable of each branch. -/
def mockMetrics : TopicBucket → String
  | .revenueTrend => mRevenue
  | .comparison => mComparison
  | .growthTrend => mGrowth
  | .generic => mGeneric

/-- The `htmlContent` template of `generateMockVisualization` (part_001
lines 221-294), as a function of the selected bucket: the literal segments
with `title`, `title`, `metrics`, `chartType`, `chartData`, `title`
interpolated in source order. -/
def mockRender (b : TopicBucket) : String :=
  mockSeg0 ++ mockTitle b ++ mockSeg1 ++ mockTitle b ++ mockSeg2 ++ mockMetrics b ++
    mockSeg3 ++ mockChartType b ++ mockSeg4 ++ mockChartData b ++ mockSeg5 ++
    mockTitle b ++ mockSeg6

/-- `generateMockVisualization` (part_001 lines 105-298): classify the
content, then render the matching static template. -/
def generateMockVisualization (content : String) : String :=
  mockRender (classify content)

/-! ## Fallback visualization generator (geminiVisualization.ts, 223-560) -/

/-- JavaScript `s.replace(/C/g, r)` for a single-character pattern `C`:
every occurrence of the character is replaced by `r`. -/
def replaceCharL (t : Char) (r : List Char) : List Char → List Char
  | [] => []
  | c :: cs => (if c = t then r else [c]) ++ replaceCharL t r cs

/-- String-level wrapper for `replaceCharL`. -/
def jsReplaceAllChar (t : Char) (r : String) (s : String) : String :=
  String.mk (replaceCharL t r.data s.data)

/-- The sanitizing step of the content card (geminiVisualization.ts line
497): replace every occurrence of the character `<` by the string `<` and
every occurrence of `>` by `>`.  Both replacements are identities as
written in the source. -/
def sanitizeContent (content : String) : String :=
  jsReplaceAllChar '>' ">" (jsReplaceAllChar '<' "<" content)

/-- Helper for `splitChar`; `acc` holds the current piece reversed. -/
def splitCharAux (t : Char) (acc : List Char) : List Char → List String
  | [] => [String.mk acc.reverse]
  | c :: rest =>
    if c = t then String.mk acc.reverse :: splitCharAux t [] rest
    else splitCharAux t (c :: acc) rest

/-- JavaScript `s.split(t)` for a single-character separator: pieces
between occurrences, keeping empty pieces. -/
def splitChar (t : Char) (l : List Char) : List String := splitCharAux t [] l

/-- Length of `dropWhile` never exceeds the length of the input. -/
theorem dropWhile_len_le (p : Char → Bool) (l : List Char) :
    (l.dropWhile p).length ≤ l.length := by
  induction l with
  | nil => simp
  | cons c cs ih =>
    rw [List.dropWhile_cons]
    split
    · exact Nat.le_trans ih (by simp)
    · exact Nat.le_refl _

/-- Helper for `splitRuns`; `acc` holds the current piece reversed. -/
def splitRunsAux (p : Char → Bool) (acc : List Char) : List Char → List String
  | [] => [String.mk acc.reverse]
  | c :: rest =>
    if p c then String.mk acc.reverse :: splitRunsAux p [] (rest.dropWhile p)
    else splitRunsAux p (c :: acc) rest
termination_by l => l.length
decreasing_by
  · exact Nat.lt_succ_of_le (dropWhile_len_le p rest)
  · exact Nat.lt_succ_self _

/-- JavaScript `s.split(re)` where `re` matches nonempty runs of
characters satisfying `p` (the source splits on `/[.!?]+/` and `/\s+/`):
pieces between maximal runs, keeping empty pieces at the ends. -/
def splitRuns (p : Char → Bool) (l : List Char) : List String := splitRunsAux p [] l

/-- `const lines = content.split(Backslash-n).filter(line => line.trim())`
(geminiVisualization.ts line 227). -/
def jsLines (content : String) : List String :=
  (splitChar '\n' content.data).filter (fun l => !(jsTrim l).isEmpty)

/-- The character class of the sentence-splitting regex `/[.!?]+/`. -/
def isSentenceBreak (c : Char) : Bool := c == '.' || c == '!' || c == '?'

/-- `const sentences = content.split(/[.!?]+/).filter(s => s.trim())`
(geminiVisualization.ts line 228). -/
def jsSentences (content : String) : List String :=
  (splitRuns isSentenceBreak content.data).filter (fun s => !(jsTrim s).isEmpty)

/-- `const words = content.split(/\s+/).filter(w => w.trim())`
(geminiVisualization.ts line 229). -/
def jsWords (content : String) : List String :=
  (splitRuns isJsWhitespace content.data).filter (fun w => !(jsTrim w).isEmpty)

/-- The character class `[\d,]` of the number-matching regex. -/
def isDigitOrComma (c : Char) : Bool := c.isDigit || c == ','

/-- Completes a number match after the integer/comma run: an optional dot
followed by a greedy digit run (the `\.?\d*` part of the regex).  Returns
the full match and the remaining input. -/
def numTail (m s2 : List Char) : List Char × List Char :=
  match s2 with
  | [] => (m, [])
  | c :: s3 =>
    if c = '.' then (m ++ '.' :: s3.takeWhile Char.isDigit, s3.dropWhile Char.isDigit)
    else (m, c :: s3)

/-- One attempt of the regex `/\$?[\d,]+\.?\d*/` at the head of the input
(geminiVisualization.ts line 232): an optional dollar sign, a nonempty
greedy run of digits and commas, then `numTail`.  Returns the match and
the rest, or `none` when the regex does not match here. -/
def matchNumberAt : List Char → Option (List Char × List Char)
  | [] => none
  | c :: cs =>
    if c = '$' then
      let run := cs.takeWhile isDigitOrComma
      if run.isEmpty then none
      else some (numTail ('$' :: run) (cs.dropWhile isDigitOrComma))
    else
      let run := (c :: cs).takeWhile isDigitOrComma
      if run.isEmpty then none
      else some (numTail run ((c :: cs).dropWhile isDigitOrComma))

/-- One attempt of the regex `/\d+%/` at the head of the input
(geminiVisualization.ts line 233): a nonempty greedy digit run followed by
a percent sign. -/
def matchPercentAt (s : List Char) : Option (List Char × List Char) :=
  let run := s.takeWhile Char.isDigit
  if run.isEmpty then none
  else
    match s.dropWhile Char.isDigit with
    | [] => none
    | c :: r2 => if c = '%' then some (run ++ ['%'], r2) else none

/-- Exactly `n` digits from the head of the input, or `none`. -/
def takeExactDigits : Nat → List Char → Option (List Char × List Char)
  | 0, s => some ([], s)
  | _ + 1, [] => none
  | n + 1, c :: cs =>
    if c.isDigit then
      (takeExactDigits n cs).map (fun p => (c :: p.1, p.2))
    else none

/-- Consumes the literal character `t` from the head of the input. -/
def expectChar (t : Char) : List Char → Option (List Char)
  | [] => none
  | c :: r => if c = t then some r else none

/-- One attempt of the branch `\d{1,2}\/\d{1,2}\/\d{4}` with the two
bounded quantifiers fixed at `a` and `b` digits. -/
def tryDateSlash (a b : Nat) (s : List Char) : Option (List Char × List Char) :=
  match takeExactDigits a s with
  | none => none
  | some (d1, r1) =>
    match expectChar '/' r1 with
    | none => none
    | some r2 =>
      match takeExactDigits b r2 with
      | none => none
      | some (d2, r3) =>
        match expectChar '/' r3 with
        | none => none
        | some r4 =>
          match takeExactDigits 4 r4 with
          | none => none
          | some (d3, r5) => some (d1 ++ '/' :: d2 ++ '/' :: d3, r5)

/-- One attempt of the branch `\d{4}-\d{2}-\d{2}`. -/
def tryDateDash (s : List Char) : Option (List Char × List Char) :=
  match takeExactDigits 4 s with
  | none => none
  | some (d1, r1) =>
    match expectChar '-' r1 with
    | none => none
    | some r2 =>
      match takeExactDigits 2 r2 with
      | none => none
      | some (d2, r3) =>
        match expectChar '-' r3 with
        | none => none
        | some r4 =>
          match takeExactDigits 2 r4 with
          | none => none
          | some (d3, r5) => some (d1 ++ '-' :: d2 ++ '-' :: d3, r5)

/-- One attempt of the regex `/\d{1,2}\/\d{1,2}\/\d{4}|\d{4}-\d{2}-\d{2}/`
at the head of the input (geminiVisualization.ts line 234), in the
backtracking order of the regex engine: left alternative first, each
`\d{1,2}` greedy. -/
def matchDateAt (s : List Char) : Option (List Char × List Char) :=
  match tryDateSlash 2 2 s with
  | some x => some x
  | none =>
    match tryDateSlash 2 1 s with
    | some x => some x
    | none =>
      match tryDateSlash 1 2 s with
      | some x => some x
      | none =>
        match tryDateSlash 1 1 s with
        | some x => some x
        | none => tryDateDash s

/-! ### Every successful match consumes at least one character -/

/-- The rest returned by `numTail` is no longer than its input. -/
theorem numTail_snd_len_le (m s2 : List Char) : (numTail m s2).2.length ≤ s2.length := by
  unfold numTail
  split
  · exact Nat.le_refl _
  · split
    · next c s3 _ =>
      have := dropWhile_len_le Char.isDigit s3
      simp only [List.length_cons]
      omega
    · exact Nat.le_refl _

/-- A nonempty `takeWhile` forces a strictly shorter `dropWhile`. -/
theorem dropWhile_len_lt_of_takeWhile_nonempty (p : Char → Bool) (l : List Char)
    (h : (l.takeWhile p).isEmpty = false) : (l.dropWhile p).length < l.length := by
  cases l with
  | nil => simp [List.takeWhile] at h
  | cons c cs =>
    rw [List.takeWhile_cons] at h
    rw [List.dropWhile_cons]
    split
    · have := dropWhile_len_le p cs
      simp only [List.length_cons]
      omega
    · next hpc =>
      rw [if_neg hpc] at h
      simp at h

/-- `matchNumberAt` strictly shrinks the input. -/
theorem matchNumberAt_shrinks (s m r : List Char) (h : matchNumberAt s = some (m, r)) :
    r.length < s.length := by
  cases s with
  | nil => simp [matchNumberAt] at h
  | cons c cs =>
    simp only [matchNumberAt] at h
    split at h
    · split at h
      · exact absurd h (by simp)
      · have hr : r = (numTail ('$' :: cs.takeWhile isDigitOrComma)
            (cs.dropWhile isDigitOrComma)).2 := by
          have := Option.some.inj h
          exact (congrArg Prod.snd this).symm
        have h1 := numTail_snd_len_le ('$' :: cs.takeWhile isDigitOrComma)
          (cs.dropWhile isDigitOrComma)
        have h2 := dropWhile_len_le isDigitOrComma cs
        rw [hr]
        simp only [List.length_cons]
        omega
    · split at h
      · exact absurd h (by simp)
      · next hne =>
        have hr : r = (numTail ((c :: cs).takeWhile isDigitOrComma)
            ((c :: cs).dropWhile isDigitOrComma)).2 := by
          have := Option.some.inj h
          exact (congrArg Prod.snd this).symm
        have h1 := numTail_snd_len_le ((c :: cs).takeWhile isDigitOrComma)
          ((c :: cs).dropWhile isDigitOrComma)
        have h2 := dropWhile_len_lt_of_takeWhile_nonempty isDigitOrComma (c :: cs)
          (by simpa using hne)
        rw [hr]
        omega

/-- `matchPercentAt` strictly shrinks the input. -/
theorem matchPercentAt_shrinks (s m r : List Char) (h : matchPercentAt s = some (m, r)) :
    r.length < s.length := by
  simp only [matchPercentAt] at h
  split at h
  · exact absurd h (by simp)
  · split at h
    · exact absurd h (by simp)
    · next c r2 heq =>
      split at h
      · have hr : r = r2 := by
          have := Option.some.inj h
          exact (congrArg Prod.snd this).symm
        have h2 : (s.dropWhile Char.isDigit).length ≤ s.length := dropWhile_len_le _ _
        rw [heq] at h2
        simp only [List.length_cons] at h2
        subst hr
        omega
      · exact absurd h (by simp)

/-- `takeExactDigits n` consumes exactly `n` characters. -/
theorem takeExactDigits_len : ∀ (n : Nat) (s m r : List Char),
    takeExactDigits n s = some (m, r) → r.length + n = s.length := by
  intro n
  induction n with
  | zero =>
    intro s m r h
    simp only [takeExactDigits, Option.some.injEq, Prod.mk.injEq] at h
    obtain ⟨hm, hr⟩ := h
    subst hr
    omega
  | succ k ih =>
    intro s m r h
    cases s with
    | nil => simp [takeExactDigits] at h
    | cons c cs =>
      simp only [takeExactDigits] at h
      split at h
      · cases hk : takeExactDigits k cs with
        | none => rw [hk] at h; simp at h
        | some p =>
          obtain ⟨m2, r2⟩ := p
          rw [hk] at h
          simp at h
          obtain ⟨hm, hr⟩ := h
          have hlen := ih cs m2 r2 hk
          subst hr
          simp only [List.length_cons]
          omega
      · exact absurd h (by simp)

/-- `expectChar` consumes exactly one character. -/
theorem expectChar_len (t : Char) (l r : List Char) (h : expectChar t l = some r) :
    r.length + 1 = l.length := by
  cases l with
  | nil => simp [expectChar] at h
  | cons c cs =>
    simp only [expectChar] at h
    split at h
    · rw [← Option.some.inj h]
      simp
    · exact absurd h (by simp)

/-- `tryDateSlash` strictly shrinks the input when `0 < a`. -/
theorem tryDateSlash_shrinks (a b : Nat) (ha : 0 < a) (s m r : List Char)
    (h : tryDateSlash a b s = some (m, r)) : r.length < s.length := by
  unfold tryDateSlash at h
  split at h
  · exact absurd h (by simp)
  · next d1 r1 h1 =>
    split at h
    · exact absurd h (by simp)
    · next r2 h2 =>
      split at h
      · exact absurd h (by simp)
      · next d2 r3 h3 =>
        split at h
        · exact absurd h (by simp)
        · next r4 h4 =>
          split at h
          · exact absurd h (by simp)
          · next d3 r5 h5 =>
            have hr : r = r5 := ((congrArg Prod.snd (Option.some.inj h))).symm
            have l1 := takeExactDigits_len a s d1 r1 h1
            have l2 := expectChar_len '/' r1 r2 h2
            have l3 := takeExactDigits_len b r2 d2 r3 h3
            have l4 := expectChar_len '/' r3 r4 h4
            have l5 := takeExactDigits_len 4 r4 d3 r5 h5
            subst hr
            omega

/-- `tryDateDash` strictly shrinks the input. -/
theorem tryDateDash_shrinks (s m r : List Char) (h : tryDateDash s = some (m, r)) :
    r.length < s.length := by
  unfold tryDateDash at h
  split at h
  · exact absurd h (by simp)
  · next d1 r1 h1 =>
    split at h
    · exact absurd h (by simp)
    · next r2 h2 =>
      split at h
      · exact absurd h (by simp)
      · next d2 r3 h3 =>
        split at h
        · exact absurd h (by simp)
        · next r4 h4 =>
          split at h
          · exact absurd h (by simp)
          · next d3 r5 h5 =>
            have hr : r = r5 := ((congrArg Prod.snd (Option.some.inj h))).symm
            have l1 := takeExactDigits_len 4 s d1 r1 h1
            have l2 := expectChar_len '-' r1 r2 h2
            have l3 := takeExactDigits_len 2 r2 d2 r3 h3
            have l4 := expectChar_len '-' r3 r4 h4
            have l5 := takeExactDigits_len 2 r4 d3 r5 h5
            subst hr
            omega

/-- `matchDateAt` strictly shrinks the input. -/
theorem matchDateAt_shrinks (s m r : List Char) (h : matchDateAt s = some (m, r)) :
    r.length < s.length := by
  unfold matchDateAt at h
  split at h
  · next x h1 =>
    obtain ⟨m1, r1⟩ := x
    have hr : r = r1 := (congrArg Prod.snd (Option.some.inj h)).symm
    rw [hr]
    exact tryDateSlash_shrinks 2 2 (by omega) s m1 r1 h1
  · split at h
    · next x h1 =>
      obtain ⟨m1, r1⟩ := x
      have hr : r = r1 := (congrArg Prod.snd (Option.some.inj h)).symm
      rw [hr]
      exact tryDateSlash_shrinks 2 1 (by omega) s m1 r1 h1
    · split at h
      · next x h1 =>
        obtain ⟨m1, r1⟩ := x
        have hr : r = r1 := (congrArg Prod.snd (Option.some.inj h)).symm
        rw [hr]
        exact tryDateSlash_shrinks 1 2 (by omega) s m1 r1 h1
      · split at h
        · next x h1 =>
          obtain ⟨m1, r1⟩ := x
          have hr : r = r1 := (congrArg Prod.snd (Option.some.inj h)).symm
          rw [hr]
          exact tryDateSlash_shrinks 1 1 (by omega) s m1 r1 h1
        · exact tryDateDash_shrinks s m r h

/-- The left-to-right global scan of JavaScript `s.match(re)` with a
global regex: attempt the matcher at every position; on success record
the match and continue after it, otherwise advance one character.  The
argument `hf` witnesses that every match is nonempty, which the three
concrete regexes guarantee. -/
def scanMatches (f : List Char → Option (List Char × List Char))
    (hf : ∀ s m r, f s = some (m, r) → r.length < s.length) :
    List Char → List String
  | [] => []
  | c :: rest =>
    match h : f (c :: rest) with
    | some (m, r) => String.mk m :: scanMatches f hf r
    | none => scanMatches f hf rest
termination_by l => l.length
decreasing_by
  · exact hf _ _ _ h
  · exact Nat.lt_succ_self _

/-- `const numbers = content.match(/\$?[\d,]+\.?\d*\/g) || []`
(geminiVisualization.ts line 232). -/
def jsMatchNumbers (content : String) : List String :=
  scanMatches matchNumberAt matchNumberAt_shrinks content.data

/-- `const percentages = content.match(/\d+%/g) || []`
(geminiVisualization.ts line 233). -/
def jsMatchPercentages (content : String) : List String :=
  scanMatches matchPercentAt matchPercentAt_shrinks content.data

/-- `const dates = content.match(/\d{1,2}\/\d{1,2}\/\d{4}|\d{4}-\d{2}-\d{2}/g) || []`
(geminiVisualization.ts line 234). -/
def jsMatchDates (content : String) : List String :=
  scanMatches matchDateAt matchDateAt_shrinks content.data

/-- `detectContentType` (geminiVisualization.ts lines 124-139): score the
lowercased content against two keyword lists and return one of the three
content-type strings. -/
def detectContentType (content : String) : String :=
  let financialKeywords := ["revenue", "profit", "loss", "cash flow", "assets",
    "liabilities", "expenses", "$", "financial"]
  let meetingKeywords := ["meeting", "agenda", "action items", "decisions",
    "participants", "summary", "next steps"]
  let lowerContent := jsToLower content
  let financialScore := financialKeywords.foldl
    (fun score keyword => score + (if jsIncludes lowerContent keyword then 1 else 0)) 0
  let meetingScore := meetingKeywords.foldl
    (fun score keyword => score + (if jsIncludes lowerContent keyword then 1 else 0)) 0
  if financialScore > meetingScore && financialScore > 2 then "financial"
  else if meetingScore > financialScore && meetingScore > 2 then "meeting"
  else "general"

/-- The conditional Financial Data insight card
(`numbers.length > 0 ? ... : empty`, geminiVisualization.ts lines 501-510). -/
def numbersCard (numbers : List String) : String :=
  if numbers.length > 0 then
    ncSeg0 ++ String.join ((numbers.take 5).map (fun num => "<li>" ++ num ++ "</li>")) ++
      ncSeg1 ++
      (if numbers.length > 5 then
        "<li>...and " ++ toString (numbers.length - 5) ++ " more</li>"
      else "") ++
      ncSeg2
  else ""

/-- The conditional Percentages insight card (lines 512-519). -/
def percentagesCard (percentages : List String) : String :=
  if percentages.length > 0 then
    pcSeg0 ++ String.join ((percentages.take 5).map (fun pct => "<li>" ++ pct ++ "</li>")) ++
      pcSeg1
  else ""

/-- The conditional Important Dates insight card (lines 521-528). -/
def datesCard (dates : List String) : String :=
  if dates.length > 0 then
    dcSeg0 ++ String.join ((dates.take 5).map (fun date => "<li>" ++ date ++ "</li>")) ++
      dcSeg1
  else ""

/-- The Complexity entry of the Key Insights card
(`sentences.length > 20 ? High : sentences.length > 10 ? Medium : Low`). -/
def complexityLabel (nSentences : Nat) : String :=
  if nSentences > 20 then "High" else if nSentences > 10 then "Medium" else "Low"

/-- JavaScript `content.length`: the length of the string in UTF-16 code
units (code points above `0xFFFF` count twice). -/
def jsStringLength (s : String) : Nat :=
  (s.data.map (fun c => if c.toNat ≥ 0x10000 then 2 else 1)).sum

/-- The output template of `generateFallbackVisualization`
(geminiVisualization.ts lines 235-559) as a function of the locals
computed in its body: the thirteen literal segments with the twelve
interpolations in source order. -/
def fallbackBody (content contentType : String)
    (lines sentences words numbers percentages dates : List String) : String :=
  fbSeg0 ++ sanitizeContent content ++ fbSeg1 ++ numbersCard numbers ++ fbSeg2 ++
    percentagesCard percentages ++ fbSeg3 ++ datesCard dates ++ fbSeg4 ++
    jsToUpper contentType ++ fbSeg5 ++ complexityLabel sentences.length ++ fbSeg6 ++
    toString ((words.length + 199) / 200) ++ fbSeg7 ++ toString lines.length ++ fbSeg8 ++
    toString words.length ++ fbSeg9 ++ toString lines.length ++ fbSeg10 ++
    toString sentences.length ++ fbSeg11 ++ toString (jsStringLength content) ++ fbSeg12

/-- `generateFallbackVisualization` (geminiVisualization.ts lines 223-560):
compute the content type, the filtered line/sentence/word splits and the
three regex match lists, then interpolate them into the fixed template.
`Math.ceil(words.length / 200)` is `(words.length + 199) / 200` in natural
division. -/
def generateFallbackVisualization (content : String) : String :=
  fallbackBody content (detectContentType content) (jsLines content)
    (jsSentences content) (jsWords content) (jsMatchNumbers content)
    (jsMatchPercentages content) (jsMatchDates content)

/-! ## Response cleaning and skeleton wrapping (VisualizationPage.tsx)

`generateVisualization` (lines 97-137) post-processes the generative-API
response text: strip markdown fences with
`.replace(/三backtick-html-newline?/g, empty).replace(/三backtick-newline?/g, empty).trim()`,
then wrap in a fixed skeleton unless the result already contains
`<!DOCTYPE html>` or `<html`. -/

/-- Consumes the optional `\n` of the fence regexes (`...\n?`). -/
def dropOptNewline (l : List Char) : List Char :=
  match l with
  | [] => []
  | c :: r => if c = '\n' then r else c :: r

/-- `dropOptNewline` never lengthens its input. -/
theorem dropOptNewline_len_le (l : List Char) : (dropOptNewline l).length ≤ l.length := by
  unfold dropOptNewline
  split
  · exact Nat.le_refl _
  · split
    · exact Nat.le_succ _
    · exact Nat.le_refl _

/-- The pattern of the first fence regex: three backticks then `html`. -/
def fenceHtmlPat : List Char := "\x60\x60\x60html".data

/-- The pattern of the second fence regex: three backticks. -/
def fencePat : List Char := "\x60\x60\x60".data

/-- Global replacement of a literal fence pattern followed by an optional
newline (the regexes `/fence\n?/g` with empty replacement): scan left to
right; at a match consume the `plen` pattern characters and an optional
newline, else keep one character and continue.  `fuel` is an upper bound
on the number of scan steps; every step consumes at least one character,
so starting the scan with `fuel = l.length` is exact. -/
def stripFenceAux (pat : List Char) (plen : Nat) : Nat → List Char → List Char
  | 0, l => l
  | _ + 1, [] => []
  | fuel + 1, c :: rest =>
    if isPrefixOfL pat (c :: rest) then
      stripFenceAux pat plen fuel (dropOptNewline ((c :: rest).drop plen))
    else c :: stripFenceAux pat plen fuel rest

/-- Global replacement of `/three-backticks-html\n?/g` by the empty string. -/
def stripHtmlFence (l : List Char) : List Char := stripFenceAux fenceHtmlPat 7 l.length l

/-- Global replacement of `/three-backticks\n?/g` by the empty string. -/
def stripFence (l : List Char) : List Char := stripFenceAux fencePat 3 l.length l

/-- The cleaning step of `generateVisualization` (VisualizationPage.tsx
lines 100-101): strip the html fence, strip remaining fences, trim. -/
def cleanGeminiResponse (s : String) : String :=
  jsTrim (String.mk (stripFence (stripHtmlFence s.data)))

/-- The fixed HTML skeleton wrapped around a cleaned response that is not
already a full document (VisualizationPage.tsx lines 104-133). -/
def vpSkeletonWrap (htmlContent : String) : String :=
  vpSeg0 ++ htmlContent ++ vpSeg1

/-- The post-processing of `generateVisualization` on the raw response
text (VisualizationPage.tsx lines 97-137): clean, then wrap in the
skeleton unless the cleaned text contains `<!DOCTYPE html>` or `<html`. -/
def processGeminiResponse (raw : String) : String :=
  let htmlContent := cleanGeminiResponse raw
  if !(jsIncludes htmlContent "<!DOCTYPE html>") && !(jsIncludes htmlContent "<html") then
    vpSkeletonWrap htmlContent
  else htmlContent

/-! ## Helper lemmas about the string primitives -/

/-- Appending strings appends their character lists. -/
theorem data_append (a b : String) : (a ++ b).data = a.data ++ b.data := by
  cases a; cases b; rfl

/-- A leading segment of `a` is a leading segment of `a ++ b`. -/
theorem isPrefixOfL_append (p a b : List Char) (h : isPrefixOfL p a = true) :
    isPrefixOfL p (a ++ b) = true := by
  induction p generalizing a with
  | nil => rfl
  | cons q ps ih =>
    cases a with
    | nil => simp [isPrefixOfL] at h
    | cons x xs =>
      simp only [List.cons_append, isPrefixOfL, Bool.and_eq_true] at h ⊢
      exact ⟨h.1, ih xs h.2⟩

/-- Every list is a leading segment of itself. -/
theorem isPrefixOfL_refl (l : List Char) : isPrefixOfL l l = true := by
  induction l with
  | nil => rfl
  | cons c cs ih => simp [isPrefixOfL, ih]

/-- A leading segment decomposes the list. -/
theorem isPrefixOfL_exists (p s : List Char) (h : isPrefixOfL p s = true) :
    ∃ t, s = p ++ t := by
  induction p generalizing s with
  | nil => exact ⟨s, rfl⟩
  | cons q ps ih =>
    cases s with
    | nil => simp [isPrefixOfL] at h
    | cons c cs =>
      simp only [isPrefixOfL, Bool.and_eq_true, beq_iff_eq] at h
      obtain ⟨t, ht⟩ := ih cs h.2
      refine ⟨t, ?_⟩
      rw [List.cons_append, ← h.1, ← ht]

/-- A leading segment is a substring. -/
theorem hasSubL_of_isPrefixOfL (p s : List Char) (h : isPrefixOfL p s = true) :
    hasSubL p s = true := by
  cases s with
  | nil =>
    cases p with
    | nil => rfl
    | cons q ps => simp [isPrefixOfL] at h
  | cons c rest => simp [hasSubL, h]

/-- The empty pattern is a substring of everything. -/
theorem hasSubL_nil (s : List Char) : hasSubL [] s = true := by
  cases s with
  | nil => rfl
  | cons c rest => simp [hasSubL, isPrefixOfL]

/-- A substring of `a` is a substring of `a ++ b`. -/
theorem hasSubL_append_left (p a b : List Char) (h : hasSubL p a = true) :
    hasSubL p (a ++ b) = true := by
  induction a with
  | nil =>
    simp only [hasSubL, List.isEmpty_iff] at h
    subst h
    exact hasSubL_nil b
  | cons c as ih =>
    simp only [hasSubL, Bool.or_eq_true] at h
    rcases h with h | h
    · simp only [List.cons_append]
      exact hasSubL_of_isPrefixOfL _ _
        (by simpa [List.cons_append] using isPrefixOfL_append p (c :: as) b h)
    · simp only [List.cons_append, hasSubL, Bool.or_eq_true]
      exact Or.inr (ih h)

/-- `p` occurs in `a ++ p`. -/
theorem hasSubL_append_self (p a : List Char) : hasSubL p (a ++ p) = true := by
  induction a with
  | nil =>
    simp only [List.nil_append]
    exact hasSubL_of_isPrefixOfL p p (isPrefixOfL_refl p)
  | cons c as ih => simp [hasSubL, ih]

/-- `startsWith` survives appending on the right. -/
theorem startsWith_append (a b p : String) (h : startsWithL a p = true) :
    startsWithL (a ++ b) p = true := by
  unfold startsWithL at h ⊢
  rw [data_append]
  exact isPrefixOfL_append _ _ _ h

/-- `endsWith` survives appending on the left. -/
theorem endsWith_append (a b p : String) (h : endsWithL b p = true) :
    endsWithL (a ++ b) p = true := by
  unfold endsWithL at h ⊢
  rw [data_append, List.reverse_append]
  exact isPrefixOfL_append _ _ _ h

/-- `includes` survives appending on the right. -/
theorem jsIncludes_append_left (a b p : String) (h : jsIncludes a p = true) :
    jsIncludes (a ++ b) p = true := by
  unfold jsIncludes at h ⊢
  rw [data_append]
  exact hasSubL_append_left _ _ _ h

/-- A string includes its own trailing copy. -/
theorem jsIncludes_append_self (a p : String) : jsIncludes (a ++ p) p = true := by
  unfold jsIncludes
  rw [data_append]
  exact hasSubL_append_self _ _

/-- A string includes what it starts with. -/
theorem jsIncludes_of_startsWith (s p : String) (h : startsWithL s p = true) :
    jsIncludes s p = true := hasSubL_of_isPrefixOfL _ _ h

/-- A string includes what it ends with. -/
theorem jsIncludes_of_endsWith (s p : String) (h : endsWithL s p = true) :
    jsIncludes s p = true := by
  unfold endsWithL at h
  obtain ⟨t, ht⟩ := isPrefixOfL_exists _ _ h
  have hs : s.data = t.reverse ++ p.data := by
    have h2 := congrArg List.reverse ht
    simpa using h2
  unfold jsIncludes
  rw [hs]
  exact hasSubL_append_self _ _

/-- Replacing a character by itself changes nothing. -/
theorem replaceCharL_self (t : Char) (l : List Char) : replaceCharL t [t] l = l := by
  induction l with
  | nil => rfl
  | cons c cs ih =>
    simp only [replaceCharL]
    by_cases hc : c = t
    · rw [if_pos hc, hc, ih]
      rfl
    · rw [if_neg hc, ih]
      rfl

/-- The two sanitizing `replace` calls of the fallback generator are
identities: the source replaces the character `<` by the one-character
string `<` and the character `>` by `>`. -/
theorem sanitizeContent_id (content : String) : sanitizeContent content = content := by
  have h1 : jsReplaceAllChar '<' "<" content = content := by
    unfold jsReplaceAllChar
    rw [show ("<" : String).data = ['<'] from rfl, replaceCharL_self]
  have h2 : jsReplaceAllChar '>' ">" content = content := by
    unfold jsReplaceAllChar
    rw [show (">" : String).data = ['>'] from rfl, replaceCharL_self]
  unfold sanitizeContent
  rw [h1, h2]

/-! ## Claim theorems -/

set_option maxRecDepth 1000000

/-- C1: for every `TopicBucket` and every input string fed to the fallback
generator, the rendered document begins with `<!DOCTYPE html>`, ends with
the closing `</html>` tag, and hence contains both markers: the output is
always a syntactically complete HTML document. -/
theorem rendered_documents_are_complete_html (b : TopicBucket) (content : String) :
    startsWithL (mockRender b) "<!DOCTYPE html>" = true ∧
    endsWithL (mockRender b) "</html>" = true ∧
    jsIncludes (mockRender b) "<!DOCTYPE html>" = true ∧
    jsIncludes (mockRender b) "</html>" = true ∧
    startsWithL (generateFallbackVisualization content) "<!DOCTYPE html>" = true ∧
    endsWithL (generateFallbackVisualization content) "</html>" = true ∧
    jsIncludes (generateFallbackVisualization content) "<!DOCTYPE html>" = true ∧
    jsIncludes (generateFallbackVisualization content) "</html>" = true := by
  have m1 : startsWithL (mockRender b) "<!DOCTYPE html>" = true := by
    unfold mockRender
    iterate 12 apply startsWith_append
    decide
  have m2 : endsWithL (mockRender b) "</html>" = true := by
    unfold mockRender
    apply endsWith_append
    decide
  have f1 : startsWithL (generateFallbackVisualization content) "<!DOCTYPE html>" = true := by
    unfold generateFallbackVisualization fallbackBody
    iterate 24 apply startsWith_append
    decide
  have f2 : endsWithL (generateFallbackVisualization content) "</html>" = true := by
    unfold generateFallbackVisualization fallbackBody
    apply endsWith_append
    decide
  exact ⟨m1, m2, jsIncludes_of_startsWith _ _ m1, jsIncludes_of_endsWith _ _ m2,
    f1, f2, jsIncludes_of_startsWith _ _ f1, jsIncludes_of_endsWith _ _ f2⟩

/-- C2: the classifier is total: for every input string it returns exactly
one of the four fixed buckets. -/
theorem classify_total (s : String) :
    classify s = TopicBucket.revenueTrend ∨ classify s = TopicBucket.comparison ∨
    classify s = TopicBucket.growthTrend ∨ classify s = TopicBucket.generic := by
  cases classify s with
  | revenueTrend => exact Or.inl rfl
  | comparison => exact Or.inr (Or.inl rfl)
  | growthTrend => exact Or.inr (Or.inr (Or.inl rfl))
  | generic => exact Or.inr (Or.inr (Or.inr rfl))

/-- C3: the priority order is revenue-trend, comparison, growth-trend,
generic: an input that fails the revenue-trend condition but whose
lowercased form contains both a comparison keyword and a growth keyword is
classified comparison, not growth-trend. -/
theorem classify_comparison_beats_growth (s : String)
    (hnr : ¬(hasRevenueKw (jsToLower s) = true ∧ hasTimeKw (jsToLower s) = true))
    (hc : jsIncludes (jsToLower s) "vs" = true ∨ jsIncludes (jsToLower s) "compare" = true ∨
      jsIncludes (jsToLower s) "versus" = true)
    (hg : jsIncludes (jsToLower s) "growth" = true ∨ jsIncludes (jsToLower s) "increase" = true ∨
      jsIncludes (jsToLower s) "trend" = true) :
    classify s = TopicBucket.comparison := by
  have hcb : hasComparisonKw (jsToLower s) = true := by
    unfold hasComparisonKw
    rcases hc with h | h | h <;> simp [h]
  have hrb : (hasRevenueKw (jsToLower s) && hasTimeKw (jsToLower s)) = false := by
    cases h1 : hasRevenueKw (jsToLower s) <;> cases h2 : hasTimeKw (jsToLower s) <;>
      simp_all
  simp [classify, hrb, hcb]

/-- Witness for C3 at the concrete input `compare growth`, which contains
a comparison keyword and a growth keyword but no revenue keyword. -/
theorem classify_comparison_beats_growth_w :
    classify "compare growth" = TopicBucket.comparison :=
  classify_comparison_beats_growth "compare growth" (by decide)
    (Or.inr (Or.inl (by decide))) (Or.inl (by decide))

/-- C4: the classifier returns revenue-trend exactly when the lowercased
input contains a revenue-family keyword and a time-family keyword; in
particular the spec example maps to revenue-trend. -/
theorem classify_revenue_iff (s : String) :
    (classify s = TopicBucket.revenueTrend ↔
      ((jsIncludes (jsToLower s) "revenue" = true ∨ jsIncludes (jsToLower s) "sales" = true ∨
        jsIncludes (jsToLower s) "income" = true) ∧
       (jsIncludes (jsToLower s) "year" = true ∨ jsIncludes (jsToLower s) "month" = true ∨
        jsIncludes (jsToLower s) "quarter" = true))) ∧
    classify "Q3 revenue grew this quarter" = TopicBucket.revenueTrend := by
  constructor
  · constructor
    · intro h
      by_cases hb : (hasRevenueKw (jsToLower s) && hasTimeKw (jsToLower s)) = true
      · rw [Bool.and_eq_true] at hb
        obtain ⟨h1, h2⟩ := hb
        unfold hasRevenueKw at h1
        unfold hasTimeKw at h2
        rw [Bool.or_eq_true, Bool.or_eq_true] at h1 h2
        exact ⟨by tauto, by tauto⟩
      · exfalso
        simp only [classify] at h
        rw [if_neg hb] at h
        split at h
        · simp at h
        · split at h
          · simp at h
          · simp at h
    · intro hcond
      obtain ⟨h1, h2⟩ := hcond
      have hr : hasRevenueKw (jsToLower s) = true := by
        unfold hasRevenueKw
        rcases h1 with h | h | h <;> simp [h]
      have ht : hasTimeKw (jsToLower s) = true := by
        unfold hasTimeKw
        rcases h2 with h | h | h <;> simp [h]
      simp [classify, hr, ht]
  · decide

/-- C5: markdown-fence cleaning on the spec example removes the fences
exactly, and the cleaned output contains no residual fence marker. -/
theorem fence_cleaning_strips_fences :
    cleanGeminiResponse "\x60\x60\x60html\n<html>...</html>\n\x60\x60\x60" = "<html>...</html>" ∧
    jsIncludes (cleanGeminiResponse "\x60\x60\x60html\n<html>...</html>\n\x60\x60\x60")
      "\x60\x60\x60" = false := by
  decide

/-- C6 counterexample: the cleaned response `<!DOCTYPE html>x` lacks any
`<html` tag, yet the pass-through returns it unwrapped (the code also
accepts a bare `<!DOCTYPE html>` marker), contradicting the claim that
every cleaned response without a root `<html>` tag is wrapped in the
skeleton. -/
theorem skeleton_wrapping_cex :
    cleanGeminiResponse "<!DOCTYPE html>x" = "<!DOCTYPE html>x" ∧
    jsIncludes (cleanGeminiResponse "<!DOCTYPE html>x") "<html" = false ∧
    processGeminiResponse "<!DOCTYPE html>x" = "<!DOCTYPE html>x" ∧
    processGeminiResponse "<!DOCTYPE html>x" ≠
      vpSkeletonWrap (cleanGeminiResponse "<!DOCTYPE html>x") := by
  decide

/-- C6 (amended): the cleaned response is wrapped in the fixed skeleton
exactly when it contains neither `<!DOCTYPE html>` nor `<html` as a
substring, and the wrapped result is then a complete document; when the
cleaned response contains `<!DOCTYPE html>` or `<html` it is returned
unchanged. -/
theorem skeleton_wrapping (raw : String) :
    ((jsIncludes (cleanGeminiResponse raw) "<!DOCTYPE html>" = false ∧
      jsIncludes (cleanGeminiResponse raw) "<html" = false) →
      (processGeminiResponse raw = vpSkeletonWrap (cleanGeminiResponse raw) ∧
       startsWithL (processGeminiResponse raw) "<!DOCTYPE html>" = true ∧
       endsWithL (processGeminiResponse raw) "</html>" = true)) ∧
    ((jsIncludes (cleanGeminiResponse raw) "<!DOCTYPE html>" = true ∨
      jsIncludes (cleanGeminiResponse raw) "<html" = true) →
      processGeminiResponse raw = cleanGeminiResponse raw) := by
  constructor
  · rintro ⟨h1, h2⟩
    have hp : processGeminiResponse raw = vpSkeletonWrap (cleanGeminiResponse raw) := by
      simp [processGeminiResponse, h1, h2]
    refine ⟨hp, ?_, ?_⟩
    · rw [hp]
      unfold vpSkeletonWrap
      iterate 2 apply startsWith_append
      decide
    · rw [hp]
      unfold vpSkeletonWrap
      apply endsWith_append
      decide
  · intro h
    rcases h with h | h <;> simp [processGeminiResponse, h]

/-- Witness for C6 (amended) at the concrete input `hello`, which contains
neither document marker and is therefore wrapped. -/
theorem skeleton_wrapping_w :
    processGeminiResponse "hello" = vpSkeletonWrap (cleanGeminiResponse "hello") :=
  ((skeleton_wrapping "hello").1 ⟨by decide, by decide⟩).1

/-- C7: the spec scenario input is classified revenue-trend and its
rendered document carries the static template labels `Q1 2023` through
`Q1 2024` and the static series `[12, 19, 25, 32, 45]`, while the dollar
amounts of the input never appear: the values come from the template, not
from the input. -/
theorem revenue_scenario_uses_static_template :
    classify "Revenue increased from $12M to $45M over five quarters" =
      TopicBucket.revenueTrend ∧
    jsIncludes (generateMockVisualization
        "Revenue increased from $12M to $45M over five quarters")
      "\x27Q1 2023\x27, \x27Q2 2023\x27, \x27Q3 2023\x27, \x27Q4 2023\x27, \x27Q1 2024\x27" = true ∧
    jsIncludes (generateMockVisualization
        "Revenue increased from $12M to $45M over five quarters")
      "data: [12, 19, 25, 32, 45]" = true ∧
    jsIncludes (generateMockVisualization
        "Revenue increased from $12M to $45M over five quarters") "$12M" = false ∧
    jsIncludes (generateMockVisualization
        "Revenue increased from $12M to $45M over five quarters") "$45M" = false := by
  decide

/-- C8: rendering is deterministic: two calls on equal arguments yield
byte-identical output for both the mock renderer and the fallback
generator; the output depends on nothing but the argument. -/
theorem render_deterministic (c1 c2 : String) (h : c1 = c2) :
    generateMockVisualization c1 = generateMockVisualization c2 ∧
    generateFallbackVisualization c1 = generateFallbackVisualization c2 := by
  subst h
  exact ⟨rfl, rfl⟩

/-- Witness for C8 at a concrete argument. -/
theorem render_deterministic_w :
    generateMockVisualization "Revenue up" = generateMockVisualization "Revenue up" ∧
    generateFallbackVisualization "Revenue up" =
      generateFallbackVisualization "Revenue up" :=
  render_deterministic "Revenue up" "Revenue up" rfl

/-- C9: the empty string contains no keyword of any family, so it is
classified generic. -/
theorem classify_empty_generic : classify "" = TopicBucket.generic := by
  decide

/-- C10: the fallback generator embeds the raw input verbatim: the two
sanitizing replace calls are identity transformations, and the returned
document contains the unmodified input text as a substring. -/
theorem fallback_embeds_content_verbatim (content : String) :
    sanitizeContent content = content ∧
    jsIncludes (generateFallbackVisualization content) content = true := by
  refine ⟨sanitizeContent_id content, ?_⟩
  unfold generateFallbackVisualization fallbackBody
  rw [sanitizeContent_id]
  iterate 23 apply jsIncludes_append_left
  exact jsIncludes_append_self fbSeg0 content

end Astra
